import Mathlib

/-!
Verification of the PandasSchema validation-composition core
(`src/pandas_schema/core.py`) against its natural-language specification.

The embedding below translates the Python source shallowly:

* Cells are integers, row identifiers are naturals, a pandas `Series` is an
  ordered list of `(row-identifier, value)` pairs, and a `DataFrame` resolves
  each column name to such a series (spec section 6(a): the tabular collaborator
  offers "selection of a named column as an ordered sequence of
  (row-identifier, value) pairs").
* The modules `pandas_schema.index`, `pandas_schema.validation_warning` and
  `pandas_schema.errors` are imported by `core.py` but are not part of the
  given sources; the few record shapes and operations taken from them are
  modelled from the spec and marked `Modelled from the spec:` in their
  doc comments.
* Python exceptions are modelled with `Except`; the error type `PyErr`
  distinguishes the exception classes that `core.py` can raise or trigger.
-/

namespace PandasSchema

/-- Cell values of the table. The embedding fixes them to integers, which is
enough to express every claim (predicates over cells stay fully general). -/
abbrev Cell := Int

/-- Row identifiers (the pandas index labels attached to each row). -/
abbrev Row := Nat

/-- Modelled from the spec: a pandas `Series` of cells, i.e. an ordered
sequence of (row-identifier, value) pairs (spec section 6(a)). -/
abbrev Series := List (Row × Cell)

/-- Modelled from the spec: a boolean series aligned to row identifiers
(spec section 6(b)), as produced by `validate_series`. -/
abbrev RowMask := List (Row × Bool)

/-- Modelled from the spec: the tabular collaborator. A data frame resolves a
column name to the series of that column (spec section 6(a)). -/
structure DataFrame where
  col : String → Series

/-- Modelled from the spec: a column-axis `AxisIndexer` from the
`pandas_schema.index` module (not under the given sources). It selects one
named column, and `for_message` is the rendering that its `for_message()`
method returns: a string, or `none` when the selector has no message form
(spec sections 2 and 4.1). An empty string also counts as "nothing" under
Python truthiness, which `IndexValidation.prefix` tests. -/
structure ColIndexer where
  colName : String
  for_message : Option String

/-- Modelled from the spec: the row component of a `DualAxisIndexer`. A leaf
validation first stores the all-rows positional slice
(`RowIndexer(index=slice(None), typ=IndexType.POSITION)` in
`SeriesValidation.__init__`) and later a boolean mask produced by
`get_failed_index` (spec sections 2 and 4.1). -/
inductive RowIndexer where
  | allRows
  | mask (m : RowMask)

/-- Modelled from the spec: `DualAxisIndexer` pairs a row-axis and a
column-axis selector (spec sections 2 and 3). -/
structure DualAxisIndexer where
  row_index : RowIndexer
  col_index : Option ColIndexer

/-- Modelled from the spec: applying a `DualAxisIndexer` to a data frame
(`self.index(df)` and `failed(df)` in `core.py`) yields the selected column
restricted to the selected rows; a boolean mask keeps exactly the rows whose
identifier is marked `true` (spec sections 4.1 and 6(b)). The `none` column
case (a cross-column region) is never exercised by the leaf rules of
`core.py`, which always carry a column selector. -/
def DualAxisIndexer.apply (self : DualAxisIndexer) (df : DataFrame) : Series :=
  match self.col_index with
  | none => []
  | some ci =>
    let s := df.col ci.colName
    match self.row_index with
    | .allRows => s
    | .mask m => s.filter (fun p => (List.lookup p.1 m).getD false)

/-- State of a leaf `SeriesValidation` from `core.py`:
`colIndex` is the column selector passed to `__init__` (wrapped there into a
`DualAxisIndexer` together with the all-rows row selector), `negated` is the
negation flag (default `false`), `custom_message` is the optional message
passed up to `BaseValidation.__init__` (`None` by default), and `class_name`
models `type(self).__name__` of the concrete leaf subclass.
The abstract method `validate_series` is modelled by the elementwise
predicate `pred`, following the spec: a leaf rule "validates one column's
values row-by-row via a pluggable per-row predicate" (spec section 2), where
`true` marks a value that passes. -/
structure SeriesValidationData where
  colIndex : Option ColIndexer
  negated : Bool
  pred : Cell → Bool
  custom_message : Option String
  class_name : String

/-- Embedding of `SeriesValidation.__init__`: the stored `self.index`, a
`DualAxisIndexer` whose row component selects all rows positionally and whose
column component is the column selector given to the constructor. -/
def SeriesValidationData.index (self : SeriesValidationData) : DualAxisIndexer :=
  { row_index := .allRows, col_index := self.colIndex }

/-- Embedding of `IndexValidation.apply_index`: select the series addressed
by the stored index (`self.index(df)`). -/
def SeriesValidationData.apply_index (self : SeriesValidationData) (df : DataFrame) : Series :=
  self.index.apply df

/-- Embedding of the abstract `SeriesValidation.validate_series`: given a
series, return a boolean series that is `true` exactly where the value passes
the validation. Modelled elementwise by the leaf predicate (spec section 2). -/
def SeriesValidationData.validate_series (self : SeriesValidationData) (series : Series) : RowMask :=
  series.map (fun p => (p.1, self.pred p.2))

/-- Embedding of the pandas elementwise negation `~selected` used in
`SeriesValidation.get_failed_index`: flip every boolean, keeping the row
identifiers. -/
def seriesInvertMask (m : RowMask) : RowMask :=
  m.map (fun p => (p.1, !p.2))

/-- Embedding of `SeriesValidation.get_failed_index` (`core.py` lines
146-162): select the series, compute the pass mask via `validate_series`,
take the mask itself when `negated` and its elementwise complement otherwise,
and pair that row selection with the original column selector
(`self.index.col_index`). -/
def SeriesValidationData.get_failed_index (self : SeriesValidationData) (df : DataFrame) : DualAxisIndexer :=
  let series := self.apply_index df
  let selected := self.validate_series series
  let row_index := if self.negated then selected else seriesInvertMask selected
  { row_index := .mask row_index, col_index := self.index.col_index }

/-- Embedding of `SeriesValidation.__invert__` (`core.py` lines 172-174):
`self.negated = not self.negated; return self`. The in-place mutation is made
explicit by state passing: the first component is the object's state after
the call, the second is the returned value; because the method returns
`self`, the two coincide. -/
def SeriesValidationData.invert (self : SeriesValidationData) : SeriesValidationData × SeriesValidationData :=
  let updated := { self with negated := !self.negated }
  (updated, updated)

/-- Tree of validations: leaves are concrete `SeriesValidation` subclasses,
internal nodes are `CombinedValidation(left, right, operator)` whose
constructor stores `self.operator`, `self.left = validation_a` and
`self.right = validation_b` and passes no custom message to
`BaseValidation.__init__` (`core.py` lines 261-266). -/
inductive Validation where
  | leaf (sv : SeriesValidationData)
  | combined (left : Validation) (right : Validation) (operator : String)

/-- Name of the concrete Python class of a rule, as used when the source
formats `self.__class__`: the leaf subclass's name for a leaf,
`CombinedValidation` for a combinator. The embedding abbreviates the
`str()` rendering of the class object to the class name. -/
def Validation.type_name : Validation → String
  | .leaf sv => sv.class_name
  | .combined _ _ _ => "CombinedValidation"

/-- Modelled from the spec: a `ValidationWarning` from the
`pandas_schema.validation_warning` module (not under the given sources): the
record of which rule produced it plus a props mapping holding the row
identifier under the key `row` and the offending cell value under the key
`value` (spec sections 2 and 3); the two props entries are modelled as the
fields `row` and `value`. -/
structure ValidationWarning where
  validation : Validation
  row : Row
  value : Cell

/-- Python exceptions that the code of `core.py` can raise or trigger. -/
inductive PyErr where
  | attributeError (msg : String)
  | typeError (msg : String)
  | exception (msg : String)
  | panSchArgumentError (msg : String)

/-- Embedding of the loop body of `BaseValidation.validate` (`core.py` lines
38-47): iterate over the (index, value) pairs of the failing sub-selection
`failed(df)` and append one `ValidationWarning(self, row=index, value=value)`
for each. -/
def BaseValidation.validate_impl (self : Validation) (failed : DualAxisIndexer) (df : DataFrame) : List ValidationWarning :=
  List.foldl (fun warnings p => warnings ++ [⟨self, p.1, p.2⟩]) [] (failed.apply df)

/-- Embedding of `validate(df)` dispatched over the rule tree. A leaf runs
the inherited `BaseValidation.validate` with its own `get_failed_index`. A
`CombinedValidation` neither overrides `validate` nor implements the
abstract `get_failed_index`; the inherited abstract method body is only a
docstring, so `self.get_failed_index(df)` evaluates to `None` and the
subsequent call `failed(df)` raises
`TypeError: NoneType object is not callable`; the combined case is therefore
that error. -/
def Validation.validate : Validation → DataFrame → Except PyErr (List ValidationWarning)
  | .leaf sv, df => .ok (BaseValidation.validate_impl (.leaf sv) (sv.get_failed_index df) df)
  | .combined _ _ _, _ => .error (.typeError "NoneType object is not callable")

/-- Embedding of `CombinedValidation.get_warning_series` (`core.py` lines
268-295). Both children are validated first; `BaseValidation.validate`
returns a plain Python list (`warnings = []` with `append`), and a Python
list has no attribute `combine` (that is a pandas `Series` method), so both
the `and` branch and the `or` branch fail at the attribute lookup
`left_errors.combine` with an `AttributeError` before any merge happens.
The final branch is the explicit
`raise Exception("Operator must be ...")` of the source. The result type is
the per-row series of warning lists that the source intends to return; no
branch ever produces one. -/
def CombinedValidation.get_warning_series (left right : Validation) (operator : String) (df : DataFrame) : Except PyErr (List (Row × List ValidationWarning)) :=
  match left.validate df with
  | .error e => .error e
  | .ok _left_errors =>
    match right.validate df with
    | .error e => .error e
    | .ok _right_errors =>
      if operator = "and" then
        .error (.attributeError "list object has no attribute combine")
      else if operator = "or" then
        .error (.attributeError "list object has no attribute combine")
      else
        .error (.exception "Operator must be \"and\" or \"or\"")

/-- Embedding of the `readable_name` property of `BaseValidation`
(`core.py` lines 66-71): `type(self).__name__`, the class name of the
concrete leaf subclass. -/
def BaseValidation.readable_name (self : SeriesValidationData) : String :=
  self.class_name

/-- Embedding of `BaseValidation.default_message` (`core.py` lines 73-74):
the string `failed the` followed by the readable name. -/
def BaseValidation.default_message (self : SeriesValidationData) (_warnings : ValidationWarning) : String :=
  "failed the " ++ BaseValidation.readable_name self

/-- Embedding of `IndexValidation.prefix` (`core.py` lines 114-131): start
from an empty list; when the column selector exists and its `for_message()`
result is truthy (neither `None` nor the empty string) append it; then append
`Row` followed by the row identifier, then the value wrapped in double
quotes; finally join the pieces with single spaces. -/
def IndexValidation.prefix_string (colIndex : Option ColIndexer) (warning : ValidationWarning) : String :=
  let ret : List String := []
  let ret := match colIndex with
    | some ci =>
      match ci.for_message with
      | some col_str => if col_str ≠ "" then ret ++ [col_str] else ret
      | none => ret
    | none => ret
  let ret := ret ++ ["Row " ++ toString warning.row]
  let ret := ret ++ ["\"" ++ toString warning.value ++ "\""]
  String.intercalate " " ret

/-- Embedding of `BaseValidation.message` (`core.py` lines 56-64) as
inherited by every leaf rule: the prefix, one space, then the suffix, where
the suffix is the custom message when it is truthy (non-`None` and
non-empty) and `default_message` otherwise. -/
def BaseValidation.message (self : SeriesValidationData) (warning : ValidationWarning) : String :=
  let p := IndexValidation.prefix_string self.colIndex warning
  let suffix := match self.custom_message with
    | some m => if m ≠ "" then m else BaseValidation.default_message self warning
    | none => BaseValidation.default_message self warning
  p ++ " " ++ suffix

/-- Embedding of the `CombinedValidation.message` override (`core.py` lines
258-259): its body is the single statement `pass`, so the method returns
`None` for every warning, regardless of the combined validation itself. -/
def CombinedValidation.message_impl (_self : Validation) (_warning : ValidationWarning) : Option String :=
  none

/-- Embedding of `CombinedValidation.default_message` (`core.py` lines
297-298): the body reads `self.v_a` (and would then read `self.v_b`), but a
`CombinedValidation` object only carries the attributes `operator`, `left`,
`right` and `custom_message` set by its constructor — no attribute `v_a` is
ever assigned anywhere in the source — so the attribute lookup raises
`AttributeError` before the format string is ever assembled. -/
def CombinedValidation.default_message_impl (_self : Validation) (_warnings : ValidationWarning) : Except PyErr String :=
  .error (.attributeError "CombinedValidation object has no attribute v_a")

/-- Operand of the `|` operator: either an object that is an instance of
`BaseValidation` (a rule of the tree) or any other Python object, for which
`isinstance(other, BaseValidation)` is false. -/
inductive PyOperand where
  | validation (v : Validation)
  | notAValidation

/-- Embedding of the Python instantiation
`CombinedValidation(validation_a, validation_b, operator)`. `BaseValidation`
declares `get_failed_index` (`core.py` line 49) and `prefix` (`core.py` line
76) as abstract methods, and `CombinedValidation` implements neither of
them, so under `abc.ABC` the class is itself abstract and instantiating it
raises `TypeError` before `__init__` ever runs: the record that `__init__`
would populate (`self.operator`, `self.left`, `self.right`) is never
produced. -/
def CombinedValidation.instantiate (_validation_a _validation_b : Validation) (_operator : String) : Except PyErr Validation :=
  .error (.typeError "Cannot instantiate abstract class CombinedValidation with abstract methods get_failed_index, prefix")

/-- Embedding of `BaseValidation.__or__` (`core.py` lines 84-90): when the
right operand is not a `BaseValidation`, raise `PanSchArgumentError` whose
message formats `self.__class__` (the two adjacent string literals of the
source concatenate without a space, hence `twoValidations`); otherwise
attempt to instantiate `CombinedValidation(self, other, operator="or")`,
which fails as described at `CombinedValidation.instantiate`.
`PanSchArgumentError` is modelled from the spec: the configuration error of
spec section 7, raised when composing a rule with something that is not a
rule. -/
def BaseValidation.or_impl (self : Validation) (other : PyOperand) : Except PyErr Validation :=
  match other with
  | .notAValidation =>
    .error (.panSchArgumentError
      ("The \"|\" operator can only be used between twoValidations that subclass " ++ self.type_name))
  | .validation v => CombinedValidation.instantiate self v "or"

/-- Helper: the warning-appending loop of `BaseValidation.validate` builds
the map of the warning constructor over the failing sub-selection. -/
theorem foldl_append_warnings (v : Validation) (acc : List ValidationWarning) (l : Series) :
    List.foldl (fun warnings p => warnings ++ [(⟨v, p.1, p.2⟩ : ValidationWarning)]) acc l
      = acc ++ l.map (fun p => (⟨v, p.1, p.2⟩ : ValidationWarning)) := by
  induction l generalizing acc with
  | nil => simp
  | cons h t ih => simp [List.foldl_cons, ih]

/-- Helper: membership in an elementwise boolean series, phrased through the
underlying values. -/
theorem mem_map_mask {s : Series} {f : Cell → Bool} {r : Row} {b : Bool} :
    (r, b) ∈ s.map (fun p => (p.1, f p.2)) ↔ ∃ v, (r, v) ∈ s ∧ b = f v := by
  constructor
  · intro h
    rcases List.mem_map.mp h with ⟨⟨r0, v0⟩, hmem, heq⟩
    injection heq with h1 h2
    subst h1
    subst h2
    exact ⟨v0, hmem, rfl⟩
  · rintro ⟨v, hmem, rfl⟩
    exact List.mem_map.mpr ⟨(r, v), hmem, rfl⟩

/-- Helper: inverting an elementwise boolean series negates the predicate. -/
theorem invertMask_map (s : Series) (f : Cell → Bool) :
    seriesInvertMask (s.map (fun p => (p.1, f p.2))) = s.map (fun p => (p.1, !(f p.2))) := by
  simp [seriesInvertMask, List.map_map]

/-- Concrete column selector used by the witnesses. -/
def ci_example : ColIndexer :=
  { colName := "age", for_message := some "Column age" }

/-- Concrete leaf rule used by the witnesses: the cell must lie between 0 and
120. -/
def sv_example : SeriesValidationData :=
  { colIndex := some ci_example
    negated := false
    pred := fun v => decide (0 ≤ v ∧ v ≤ 120)
    custom_message := none
    class_name := "InRangeValidation" }

/-- Concrete table used by the witnesses: every column resolves to the ages
5, 30, -1 and 40 in rows 0 to 3. -/
def df_example : DataFrame :=
  { col := fun _ => [(0, 5), (1, 30), (2, -1), (3, 40)] }

/-- Concrete warning used by the witnesses: row 2 holds the offending -1. -/
def w_example : ValidationWarning := ⟨.leaf sv_example, 2, -1⟩

/-- C1: the claim states that for every table and every pair of rules
combined with the `and` operator, the per-row warning list of the
combination is the concatenation of both children's per-row lists. The code
cannot produce any such list: `BaseValidation.validate` returns a plain
Python list, which has no `combine` attribute (a pandas `Series` method), so
`CombinedValidation.get_warning_series` fails with an `AttributeError`
before any merge, for every pair of leaf rules and every table. -/
theorem c1_and_merge_crashes (a b : SeriesValidationData) (df : DataFrame) :
    CombinedValidation.get_warning_series (.leaf a) (.leaf b) "and" df
      = .error (.attributeError "list object has no attribute combine") := rfl

/-- C2: the claim states that for every table and every pair of rules
combined with the `or` operator, a row yields no warnings when either side
passes it and the concatenation of both sides' lists otherwise. As for the
`and` operator, the code fails at the `combine` attribute lookup on the
plain list returned by `validate`, for every pair of leaf rules and every
table, and never produces the claimed per-row result. -/
theorem c2_or_merge_crashes (a b : SeriesValidationData) (df : DataFrame) :
    CombinedValidation.get_warning_series (.leaf a) (.leaf b) "or" df
      = .error (.attributeError "list object has no attribute combine") := rfl

/-- C3: for every leaf rule and every table, `get_failed_index` keeps the
rule's original column selector, and its row mask marks exactly the rows
where `validate_series` returned `false` when `negated` is false, and
exactly the rows where it returned `true` when `negated` is true. -/
theorem c3_get_failed_index_spec (sv : SeriesValidationData) (df : DataFrame) :
    (sv.get_failed_index df).col_index = sv.colIndex ∧
    ∃ m, (sv.get_failed_index df).row_index = .mask m ∧
      ∀ r b, ((r, b) ∈ m ↔
        ∃ v, (r, v) ∈ sv.apply_index df ∧
          b = (if sv.negated then sv.pred v else !(sv.pred v))) := by
  refine ⟨rfl, ?_⟩
  by_cases hn : sv.negated
  · refine ⟨sv.validate_series (sv.apply_index df),
      by simp [SeriesValidationData.get_failed_index, hn], ?_⟩
    intro r b
    simpa [SeriesValidationData.validate_series, hn] using
      (mem_map_mask (s := sv.apply_index df) (f := sv.pred) (r := r) (b := b))
  · refine ⟨seriesInvertMask (sv.validate_series (sv.apply_index df)),
      by simp [SeriesValidationData.get_failed_index, hn], ?_⟩
    intro r b
    simp only [SeriesValidationData.validate_series]
    rw [invertMask_map]
    simpa [hn] using
      (mem_map_mask (s := sv.apply_index df) (f := fun v => !(sv.pred v)) (r := r) (b := b))

/-- C4: `~rule` toggles the `negated` flag in place — the object's state
after the call has all other fields unchanged — and returns the very object
it mutated; applying it twice restores exactly the original state, so a
doubly negated rule validates every table identically to the original. -/
theorem c4_invert_spec (sv : SeriesValidationData) :
    (sv.invert).2 = (sv.invert).1 ∧
    (sv.invert).1.negated = !sv.negated ∧
    (sv.invert).1.colIndex = sv.colIndex ∧
    (sv.invert).1.pred = sv.pred ∧
    (sv.invert).1.custom_message = sv.custom_message ∧
    (sv.invert).1.class_name = sv.class_name ∧
    ((sv.invert).2.invert).2 = sv ∧
    ∀ df, Validation.validate (.leaf ((sv.invert).2.invert).2) df
        = Validation.validate (.leaf sv) df := by
  refine ⟨rfl, rfl, rfl, rfl, rfl, rfl, ?_, ?_⟩
  · simp [SeriesValidationData.invert]
  · intro df
    simp [SeriesValidationData.invert]

/-- C5: the claim states that `rule_a | rule_b` constructs and returns a
`CombinedValidation` with left child `rule_a`, right child `rule_b` and
operator `or`. Its guard behaves as claimed — a right operand that is not a
`BaseValidation` raises `PanSchArgumentError` — but with a rule operand the
construction itself fails for every pair of rules: `CombinedValidation`
implements neither of the abstract methods `get_failed_index` and `prefix`
of `BaseValidation`, so the instantiation at `core.py` line 90 raises
`TypeError` and `__or__` never returns a combined validation. -/
theorem c5_or_raises_type_error (a b : Validation) :
    BaseValidation.or_impl a (.validation b)
      = .error (.typeError "Cannot instantiate abstract class CombinedValidation with abstract methods get_failed_index, prefix") ∧
    BaseValidation.or_impl a .notAValidation
      = .error (.panSchArgumentError
          ("The \"|\" operator can only be used between twoValidations that subclass " ++ a.type_name)) :=
  ⟨rfl, rfl⟩

/-- C6: for every leaf (index-anchored) rule and every table, the default
`validate` returns exactly one warning per (row, value) pair of the failing
sub-selection obtained by applying `get_failed_index` to the table, in the
order induced by the table, each warning referencing the producing rule and
carrying the row identifier and the original cell value in its props. -/
theorem c6_validate_leaf_spec (sv : SeriesValidationData) (df : DataFrame) :
    Validation.validate (.leaf sv) df
      = .ok (((sv.get_failed_index df).apply df).map
          (fun p => (⟨.leaf sv, p.1, p.2⟩ : ValidationWarning))) := by
  simp [Validation.validate, BaseValidation.validate_impl, foldl_append_warnings]

/-- C7: the default leaf prefix is the space-joined sequence of the column
selector's `for_message()` rendering, then `Row` with the row identifier,
then the value wrapped in double quotes; the column segment is omitted
entirely when the column selector is `None` or its rendering is falsy
(`None` or the empty string). -/
theorem c7_prefix_string_spec (ci : ColIndexer) (w : ValidationWarning) :
    (∀ s, ci.for_message = some s → s ≠ "" →
      IndexValidation.prefix_string (some ci) w
        = s ++ " " ++ ("Row " ++ toString w.row) ++ " " ++ ("\"" ++ toString w.value ++ "\"")) ∧
    IndexValidation.prefix_string none w
        = ("Row " ++ toString w.row) ++ " " ++ ("\"" ++ toString w.value ++ "\"") ∧
    ((ci.for_message = none ∨ ci.for_message = some "") →
      IndexValidation.prefix_string (some ci) w
        = ("Row " ++ toString w.row) ++ " " ++ ("\"" ++ toString w.value ++ "\"")) := by
  refine ⟨?_, rfl, ?_⟩
  · intro s hs hne
    obtain ⟨cn, fm⟩ := ci
    simp only [ColIndexer.for_message] at hs
    subst hs
    dsimp only [IndexValidation.prefix_string]
    rw [if_pos hne]
    rfl
  · rintro (hc | hc) <;>
      (obtain ⟨cn, fm⟩ := ci; simp only [ColIndexer.for_message] at hc; subst hc; rfl)

/-- Witness for C7: the first branch of `c7_prefix_string_spec` at the
concrete column selector, with both hypotheses discharged concretely. -/
theorem c7_prefix_string_spec_witness :
    ci_example.for_message = some "Column age" ∧
    ("Column age" : String) ≠ "" ∧
    IndexValidation.prefix_string (some ci_example) w_example
      = "Column age" ++ " " ++ ("Row " ++ toString w_example.row) ++ " "
          ++ ("\"" ++ toString w_example.value ++ "\"") :=
  ⟨rfl, by decide,
    (c7_prefix_string_spec ci_example w_example).1 "Column age" rfl (by decide)⟩

/-- C8: the claim states that a combined validation's `message` and
`default_message` render as the left child's message in parentheses, the
operator tag and the right child's message in parentheses. The code does
neither: the `message` override's body is `pass`, so it returns `None` for
every combined validation and warning, and `default_message` reads the
attribute `v_a`, which no code ever assigns, so it raises `AttributeError`
before assembling the format string. -/
theorem c8_combined_message_broken :
    (∀ v w, CombinedValidation.message_impl v w = none) ∧
    (∀ v w, CombinedValidation.default_message_impl v w
        = .error (.attributeError "CombinedValidation object has no attribute v_a")) :=
  ⟨fun _ _ => rfl, fun _ _ => rfl⟩

/-- C9: for every operator tag other than `and` and `or`, evaluating the
warning production of a combined validation against any table ends in a
raised exception rather than a warning collection: with leaf children it is
exactly the `Exception` raised by the final branch of `get_warning_series`,
and with arbitrary children some exception is raised in every case. -/
theorem c9_bad_operator_raises (op : String) (df : DataFrame)
    (h1 : op ≠ "and") (h2 : op ≠ "or") :
    (∀ a b : SeriesValidationData,
      CombinedValidation.get_warning_series (.leaf a) (.leaf b) op df
        = .error (.exception "Operator must be \"and\" or \"or\"")) ∧
    (∀ l r : Validation, ∃ e,
      CombinedValidation.get_warning_series l r op df = .error e) := by
  constructor
  · intro a b
    simp [CombinedValidation.get_warning_series, Validation.validate, h1, h2]
  · intro l r
    cases l with
    | leaf a =>
      cases r with
      | leaf b =>
        exact ⟨.exception "Operator must be \"and\" or \"or\"",
          by simp [CombinedValidation.get_warning_series, Validation.validate, h1, h2]⟩
      | combined x y o =>
        exact ⟨.typeError "NoneType object is not callable", rfl⟩
    | combined x y o =>
      exact ⟨.typeError "NoneType object is not callable", rfl⟩

/-- Witness for C9: the operator tag `xor` on the concrete table, with both
hypotheses discharged concretely. -/
theorem c9_bad_operator_raises_witness :
    ("xor" : String) ≠ "and" ∧ ("xor" : String) ≠ "or" ∧
    CombinedValidation.get_warning_series (.leaf sv_example) (.leaf sv_example) "xor" df_example
      = .error (.exception "Operator must be \"and\" or \"or\"") :=
  ⟨by decide, by decide,
    (c9_bad_operator_raises "xor" df_example (by decide) (by decide)).1 sv_example sv_example⟩

/-- C10: `message` takes the caller-supplied custom message as the suffix
only when it is truthy: a rule built with the empty string as custom message
produces the same message as one built with no custom message at all, namely
the prefix, a space, and `failed the` followed by the rule's class name;
a non-empty custom message becomes the suffix verbatim. -/
theorem c10_message_truthiness (sv : SeriesValidationData) (w : ValidationWarning) :
    BaseValidation.message { sv with custom_message := some "" } w
      = IndexValidation.prefix_string sv.colIndex w ++ " " ++ ("failed the " ++ sv.class_name) ∧
    BaseValidation.message { sv with custom_message := none } w
      = BaseValidation.message { sv with custom_message := some "" } w ∧
    ∀ m, m ≠ "" →
      BaseValidation.message { sv with custom_message := some m } w
        = IndexValidation.prefix_string sv.colIndex w ++ " " ++ m := by
  refine ⟨rfl, rfl, ?_⟩
  intro m hm
  simp [BaseValidation.message, hm]

/-- Witness for C10: a concrete non-empty custom message on the concrete
rule and warning, with the hypothesis discharged concretely. -/
theorem c10_message_truthiness_witness :
    ("must be an age" : String) ≠ "" ∧
    BaseValidation.message { sv_example with custom_message := some "must be an age" } w_example
      = IndexValidation.prefix_string sv_example.colIndex w_example ++ " " ++ "must be an age" :=
  ⟨by decide,
    (c10_message_truthiness sv_example w_example).2.2 "must be an age" (by decide)⟩

end PandasSchema
